import Mathlib

/-!
Verification of the music-tool drone engine against its specification.

The definitions below are a shallow embedding of the TypeScript sources:
* `DroneEngine` (the full-featured variant in `src/analytics.ts`): parameter
  cache, mode presets, randomize, preset persistence, start/stop lifecycle.
* `RandomWalkModulator` (`src/audio/Modulators.ts`).
* `PulseMachine` (16-step sequencer, `src/unnamed/part_004`).
* the snapshot-morph interpolation `runMorph` (Vue app, `src/unnamed/part_001`).
* the `darknessToCutoff` mapping, over the reals (it uses a real exponent).

Numbers that the code manipulates with +, *, min, max are modelled as
rationals; the single transcendental mapping (`Math.pow` with a real
exponent) is modelled over `ℝ`.  Randomness (`Math.random()`) is modelled by
passing the drawn values as explicit arguments in `[0,1]`.  Audio-graph
side effects (oscillators, gain ramps) are outside the state model except
where the spec's claims mention them (the master reverb wet target is kept
as an `Option ℚ` field, `none` before the audio graph exists).
-/

namespace MusicTool

/-- `clamp(v, lo, hi)` from `analytics.ts`: `Math.max(lo, Math.min(hi, v))`. -/
def clamp (v lo hi : ℚ) : ℚ := max lo (min hi v)

/-- `rootToSubHz` from `analytics.ts`: `34 + clamp(root, 0, 1) * 34`. -/
def rootToSubHz (root : ℚ) : ℚ := 34 + clamp root 0 1 * 34

/-- `subToKickHz` from `analytics.ts`: `clamp(subHz * 1.22, 38, 90)`. -/
def subToKickHz (subHz : ℚ) : ℚ := clamp (subHz * 1.22) 38 90

/-- `motionToRate` from `analytics.ts`: `0.005 + m * 0.075`. -/
def motionToRate (m : ℚ) : ℚ := 0.005 + m * 0.075

/-- The `SoundMode` union type of `analytics.ts`. -/
inductive SoundMode
  | MANUAL
  | VOID_PRESSURE
  | COSMIC_DECAY
  | STEEL_FURNACE
  | BLACK_REACTOR
deriving DecidableEq, Repr

/-- One entry of the `MODE_PRESETS` table. -/
structure ModePreset where
  darkness : ℚ
  motion : ℚ
  density : ℚ
  grain : ℚ
  rust : ℚ
  hum : ℚ
  fracture : ℚ
  space : ℚ
  pulse : ℚ
deriving DecidableEq

/-- `MODE_PRESETS` from `analytics.ts`; `MANUAL` has no preset entry. -/
def modePreset : SoundMode → Option ModePreset
  | .MANUAL => none
  | .VOID_PRESSURE => some ⟨0.9, 0.12, 0.7, 0.6, 0.75, 0.88, 0.05, 0.25, 0.36⟩
  | .COSMIC_DECAY => some ⟨0.18, 0.82, 0.3, 0.15, 0.08, 0.22, 0.72, 0.92, 0.08⟩
  | .STEEL_FURNACE => some ⟨0.55, 0.58, 0.92, 0.92, 0.62, 0.48, 0.18, 0.12, 0.56⟩
  | .BLACK_REACTOR => some ⟨0.78, 0.17, 0.96, 0.5, 0.38, 0.72, 0.45, 0.82, 0.28⟩

/-- The `DronePreset` interface of `analytics.ts`: required core fields and
optional (`?`) texture/harmonic fields. -/
structure DronePreset where
  name : String
  volume : ℚ
  darkness : ℚ
  motion : ℚ
  density : ℚ
  subFreq : ℚ
  midFreq : ℚ
  airFreq : ℚ
  grain : Option ℚ
  rust : Option ℚ
  hum : Option ℚ
  fracture : Option ℚ
  space : Option ℚ
  pulse : Option ℚ
  pureDrone : Option Bool
  root : Option ℚ
  intervalSpread : Option ℚ
  mode : Option SoundMode
deriving DecidableEq

/-- State of the `localStorage` bucket `"drone-engine-presets"`:
either parsable JSON (an association map of presets) or unparsable data. -/
inductive StoredData
  | ok (presets : List (String × DronePreset))
  | corrupt
deriving DecidableEq

/-- `_loadAllPresets`: parse failure degrades to the empty preset map. -/
def loadAllPresets : StoredData → List (String × DronePreset)
  | .ok l => l
  | .corrupt => []

/-- Key lookup in the preset map (JS object property read). -/
def lookupKey : List (String × DronePreset) → String → Option DronePreset
  | [], _ => none
  | (k, v) :: rest, n => if k = n then some v else lookupKey rest n

/-- Key insert/overwrite in the preset map (JS `presets[name] = preset`). -/
def setKey : List (String × DronePreset) → String → DronePreset → List (String × DronePreset)
  | [], n, p => [(n, p)]
  | (k, v) :: rest, n, p => if k = n then (n, p) :: rest else (k, v) :: setKey rest n p

/-- The mutable state of a `DroneEngine` instance: lifecycle flags, the
cached normalized parameters, derived frequencies, the master reverb wet
target (`none` until the audio graph is built), the macro-scene timer flag
and the persisted preset store. -/
structure Engine where
  inited : Bool
  running : Bool
  initCount : ℕ
  volume : ℚ
  darkness : ℚ
  motion : ℚ
  density : ℚ
  grain : ℚ
  rust : ℚ
  hum : ℚ
  fracture : ℚ
  space : ℚ
  pulse : ℚ
  pureDrone : Bool
  root : ℚ
  intervalSpread : ℚ
  mode : SoundMode
  subFreq : ℚ
  midFreq : ℚ
  airFreq : ℚ
  reverbWet : Option ℚ
  sceneTimer : Bool
  store : StoredData
deriving DecidableEq

/-- A freshly constructed engine (field initializers of `DroneEngine`),
with the external preset store in state `st`. -/
def initialEngine (st : StoredData) : Engine :=
  { inited := false, running := false, initCount := 0
    volume := 0.85, darkness := 0.45, motion := 0.4, density := 0.45
    grain := 0.3, rust := 0.2, hum := 0.4, fracture := 0.15
    space := 0.45, pulse := 0.18, pureDrone := false
    root := 0.35, intervalSpread := 0.4, mode := .MANUAL
    subFreq := 42, midFreq := 80, airFreq := 320
    reverbWet := none, sceneTimer := false, store := st }

/-- The record returned by the `currentParams` getter. -/
structure Params where
  volume : ℚ
  darkness : ℚ
  motion : ℚ
  density : ℚ
  grain : ℚ
  rust : ℚ
  hum : ℚ
  fracture : ℚ
  space : ℚ
  pulse : ℚ
  pureDrone : Bool
  root : ℚ
  intervalSpread : ℚ
deriving DecidableEq

/-- The `currentParams` getter. -/
def Engine.currentParams (s : Engine) : Params :=
  ⟨s.volume, s.darkness, s.motion, s.density, s.grain, s.rust, s.hum,
   s.fracture, s.space, s.pulse, s.pureDrone, s.root, s.intervalSpread⟩

/-- The `currentMode` getter. -/
def Engine.currentMode (s : Engine) : SoundMode := s.mode

/-- `_applyHarmonicStructure`: recomputes the cached derived frequencies
from `root` and `intervalSpread` (audio-graph forwarding elided). -/
def Engine.applyHarmonicStructure (s : Engine) : Engine :=
  let sub := rootToSubHz s.root
  let midRatio := 1.6 + s.intervalSpread * 1.8
  let airRatio := 4.8 + s.intervalSpread * 6.2
  { s with subFreq := sub
           midFreq := clamp (sub * midRatio) 45 200
           airFreq := clamp (sub * airRatio) 140 760 }

/-- `setVolume`. -/
def Engine.setVolume (s : Engine) (v : ℚ) : Engine := { s with volume := clamp v 0 1 }

/-- `setDarkness` (the filter ramp is audio-graph only). -/
def Engine.setDarkness (s : Engine) (v : ℚ) : Engine := { s with darkness := clamp v 0 1 }

/-- `setMotion`. -/
def Engine.setMotion (s : Engine) (v : ℚ) : Engine := { s with motion := clamp v 0 1 }

/-- `setDensity`. -/
def Engine.setDensity (s : Engine) (v : ℚ) : Engine := { s with density := clamp v 0 1 }

/-- `setGrain`. -/
def Engine.setGrain (s : Engine) (v : ℚ) : Engine := { s with grain := clamp v 0 1 }

/-- `setRust`. -/
def Engine.setRust (s : Engine) (v : ℚ) : Engine := { s with rust := clamp v 0 1 }

/-- `setHum`. -/
def Engine.setHum (s : Engine) (v : ℚ) : Engine := { s with hum := clamp v 0 1 }

/-- `setFracture`. -/
def Engine.setFracture (s : Engine) (v : ℚ) : Engine := { s with fracture := clamp v 0 1 }

/-- `setSpace`: stores the clamped value; when the audio graph exists it also
retargets the master reverb wet to `0.08 + space * 0.7`. -/
def Engine.setSpace (s : Engine) (v : ℚ) : Engine :=
  let sp := clamp v 0 1
  if s.inited then { s with space := sp, reverbWet := some (0.08 + sp * 0.7) }
  else { s with space := sp }

/-- `setPulse`. -/
def Engine.setPulse (s : Engine) (v : ℚ) : Engine := { s with pulse := clamp v 0 1 }

/-- `setPureDrone` (walker start/stop is audio-graph only). -/
def Engine.setPureDrone (s : Engine) (b : Bool) : Engine := { s with pureDrone := b }

/-- `setRoot`: clamp, store, re-derive harmonic structure. -/
def Engine.setRoot (s : Engine) (v : ℚ) : Engine :=
  Engine.applyHarmonicStructure { s with root := clamp v 0 1 }

/-- `setIntervalSpread`: clamp, store, re-derive harmonic structure. -/
def Engine.setIntervalSpread (s : Engine) (v : ℚ) : Engine :=
  Engine.applyHarmonicStructure { s with intervalSpread := clamp v 0 1 }

/-- `setMode`: `MANUAL` only records the mode; other modes overwrite the nine
timbral parameters with the preset's values (and, once the audio graph
exists, the nested `setSpace` call retargets the master reverb wet). -/
def Engine.setMode (s : Engine) (m : SoundMode) : Engine :=
  match modePreset m with
  | none => { s with mode := m }
  | some p =>
      let base := { s with mode := m
                           darkness := p.darkness, motion := p.motion, density := p.density
                           grain := p.grain, rust := p.rust, hum := p.hum
                           fracture := p.fracture, space := p.space, pulse := p.pulse }
      if s.inited then { base with reverbWet := some (0.08 + p.space * 0.7) } else base

/-- `randomize`: `rand(lo,hi) = lo + Math.random() * (hi - lo)`, with the six
uniform draws passed explicitly as `u1..u6 ∈ [0,1]`.  Overwrites darkness,
motion, density, root, intervalSpread; re-derives harmonic structure;
returns early (before the reverb nudge) when the audio graph does not exist. -/
def Engine.randomize (s : Engine) (u1 u2 u3 u4 u5 u6 : ℚ) : Engine :=
  let rand := fun (lo hi u : ℚ) => lo + u * (hi - lo)
  let s1 := { s with darkness := rand 0.2 0.85 u1
                     motion := rand 0.1 0.9 u2
                     density := rand 0.1 0.9 u3
                     root := rand 0.15 0.85 u4
                     intervalSpread := rand 0.2 0.85 u5 }
  let s2 := Engine.applyHarmonicStructure s1
  if s.inited then { s2 with reverbWet := some (rand 0.3 0.65 u6) } else s2

/-- `_applyTexture`: re-applies the six texture setters with the cached
values (each re-clamps its field; `setSpace` retargets the reverb wet) and
re-derives harmonic structure.  No-op before initialization. -/
def Engine.applyTexture (s : Engine) : Engine :=
  if s.inited then
    Engine.applyHarmonicStructure
      { s with grain := clamp s.grain 0 1, rust := clamp s.rust 0 1
               hum := clamp s.hum 0 1, fracture := clamp s.fracture 0 1
               space := clamp s.space 0 1, pulse := clamp s.pulse 0 1
               reverbWet := some (0.08 + clamp s.space 0 1 * 0.7) }
  else s

/-- `_initialize`: guarded by the `_initialized` flag; allocates the audio
graph (master reverb wet starts at `0.42`), re-derives harmonic structure,
sets the flag and re-applies texture.  `initCount` counts executions of the
allocation body. -/
def Engine.initAudio (s : Engine) : Engine :=
  if s.inited then s
  else
    let s1 := Engine.applyHarmonicStructure { s with reverbWet := some 0.42 }
    Engine.applyTexture { s1 with inited := true, initCount := s.initCount + 1 }

/-- `start`: no-op when running; otherwise initialize (idempotently), start
all layers/modulators, set the running flag and schedule the macro scene. -/
def Engine.start (s : Engine) : Engine :=
  if s.running then s
  else
    let s1 := Engine.initAudio s
    { s1 with running := true, sceneTimer := true }

/-- `stop`: no-op when not running; otherwise ramp layers to silence, stop
the modulators, cancel the macro-scene timer and clear the running flag. -/
def Engine.stop (s : Engine) : Engine :=
  if s.running then { s with running := false, sceneTimer := false } else s

/-- `savePreset`: snapshot every cached parameter (plus derived frequencies
and mode) under `name` and persist the updated map. -/
def Engine.savePreset (s : Engine) (name : String) : Engine :=
  let preset : DronePreset :=
    { name := name, volume := s.volume, darkness := s.darkness, motion := s.motion
      density := s.density, subFreq := s.subFreq, midFreq := s.midFreq, airFreq := s.airFreq
      grain := some s.grain, rust := some s.rust, hum := some s.hum
      fracture := some s.fracture, space := some s.space, pulse := some s.pulse
      pureDrone := some s.pureDrone, root := some s.root
      intervalSpread := some s.intervalSpread, mode := some s.mode }
  { s with store := .ok (setKey (loadAllPresets s.store) name preset) }

/-- `loadPreset`: `false` when the name is absent; otherwise restore every
field (`??` fallbacks for optional ones), re-clamp volume/darkness/motion/
density through their setters, and when the audio graph exists re-apply
texture and harmonic structure.  Returns the success flag and the new state. -/
def Engine.loadPreset (s : Engine) (name : String) : Bool × Engine :=
  match lookupKey (loadAllPresets s.store) name with
  | none => (false, s)
  | some p =>
      let s1 := { s with volume := p.volume, darkness := p.darkness, motion := p.motion
                         density := p.density, subFreq := p.subFreq, midFreq := p.midFreq
                         airFreq := p.airFreq
                         grain := p.grain.getD s.grain, rust := p.rust.getD s.rust
                         hum := p.hum.getD s.hum, fracture := p.fracture.getD s.fracture
                         space := p.space.getD s.space, pulse := p.pulse.getD s.pulse
                         pureDrone := p.pureDrone.getD s.pureDrone
                         root := p.root.getD s.root
                         intervalSpread := p.intervalSpread.getD s.intervalSpread
                         mode := p.mode.getD .MANUAL }
      let s2 := { s1 with volume := clamp s1.volume 0 1, darkness := clamp s1.darkness 0 1
                          motion := clamp s1.motion 0 1, density := clamp s1.density 0 1 }
      let s3 := if s.inited then Engine.applyHarmonicStructure (Engine.applyTexture s2) else s2
      (true, s3)

/-- `getPresetNames`. -/
def Engine.getPresetNames (s : Engine) : List String :=
  (loadAllPresets s.store).map Prod.fst

/-- The numeric parameter setters of the engine, as an operation alphabet
for stating invariants over arbitrary call sequences. -/
inductive SetterOp
  | vol (v : ℚ)
  | dark (v : ℚ)
  | mot (v : ℚ)
  | dens (v : ℚ)
  | grain (v : ℚ)
  | rust (v : ℚ)
  | hum (v : ℚ)
  | fracture (v : ℚ)
  | space (v : ℚ)
  | pulse (v : ℚ)
  | root (v : ℚ)
  | spread (v : ℚ)

/-- Dispatch one numeric setter call. -/
def applySetter (s : Engine) : SetterOp → Engine
  | .vol v => s.setVolume v
  | .dark v => s.setDarkness v
  | .mot v => s.setMotion v
  | .dens v => s.setDensity v
  | .grain v => s.setGrain v
  | .rust v => s.setRust v
  | .hum v => s.setHum v
  | .fracture v => s.setFracture v
  | .space v => s.setSpace v
  | .pulse v => s.setPulse v
  | .root v => s.setRoot v
  | .spread v => s.setIntervalSpread v

/-- Apply a whole sequence of numeric setter calls. -/
def applySetters (s : Engine) (ops : List SetterOp) : Engine :=
  ops.foldl applySetter s

/-- The `start`/`stop` operation alphabet for lifecycle sequences. -/
inductive LifecycleOp
  | startOp
  | stopOp

/-- Dispatch one lifecycle call. -/
def applyLifecycle (s : Engine) : LifecycleOp → Engine
  | .startOp => s.start
  | .stopOp => s.stop

/-- Apply a whole sequence of `start`/`stop` calls. -/
def runLifecycle (s : Engine) (ops : List LifecycleOp) : Engine :=
  ops.foldl applyLifecycle s

/-- Every numeric field of a `currentParams` record lies in `[0, 1]`. -/
def Params.inRange (p : Params) : Prop :=
  0 ≤ p.volume ∧ p.volume ≤ 1 ∧
  0 ≤ p.darkness ∧ p.darkness ≤ 1 ∧
  0 ≤ p.motion ∧ p.motion ≤ 1 ∧
  0 ≤ p.density ∧ p.density ≤ 1 ∧
  0 ≤ p.grain ∧ p.grain ≤ 1 ∧
  0 ≤ p.rust ∧ p.rust ≤ 1 ∧
  0 ≤ p.hum ∧ p.hum ≤ 1 ∧
  0 ≤ p.fracture ∧ p.fracture ≤ 1 ∧
  0 ≤ p.space ∧ p.space ≤ 1 ∧
  0 ≤ p.pulse ∧ p.pulse ≤ 1 ∧
  0 ≤ p.root ∧ p.root ≤ 1 ∧
  0 ≤ p.intervalSpread ∧ p.intervalSpread ≤ 1

instance : DecidablePred Params.inRange := fun p => by
  unfold Params.inRange; infer_instance

/-! ### RandomWalkModulator (`src/audio/Modulators.ts`) -/

/-- The `RandomWalkOptions` constructor argument. -/
structure RandomWalkOptions where
  min : ℚ
  max : ℚ
  initial : ℚ
  stepFraction : ℚ
  rateHz : ℚ

/-- The mutable fields of a `RandomWalkModulator`. -/
structure RWState where
  min : ℚ
  max : ℚ
  value : ℚ
  stepFraction : ℚ
  rateHz : ℚ
deriving DecidableEq

/-- The `RandomWalkModulator` constructor: clamps the initial value into
`[min, max]` and the rate into `[0.005, 0.1]`. -/
def mkRandomWalk (o : RandomWalkOptions) : RWState :=
  { min := o.min, max := o.max
    value := clamp o.initial o.min o.max
    stepFraction := o.stepFraction
    rateHz := clamp o.rateHz 0.005 0.1 }

/-- One timer tick of the walk, with the uniform draw `u` (`Math.random()`)
passed explicitly: perturb by `(u*2 - 1) * stepFraction * (max - min)` and
clamp back into `[min, max]`. -/
def RWState.tickWalk (s : RWState) (u : ℚ) : RWState :=
  let delta := (u * 2 - 1) * s.stepFraction * (s.max - s.min)
  { s with value := clamp (s.value + delta) s.min s.max }

/-- Run the walk for one tick per listed draw. -/
def RWState.runWalk (s : RWState) (us : List ℚ) : RWState :=
  us.foldl RWState.tickWalk s

/-- `setRate`: clamp the rate into `[0.005, 0.1]` (timer restart elided). -/
def RWState.setRate (s : RWState) (hz : ℚ) : RWState :=
  { s with rateHz := clamp hz 0.005 0.1 }

/-- `setRange`: update the bounds and immediately re-clamp the value. -/
def RWState.setRange (s : RWState) (lo hi : ℚ) : RWState :=
  { s with min := lo, max := hi, value := clamp s.value lo hi }

/-! ### PulseMachine (`src/unnamed/part_004`) -/

/-- The sequencer-relevant fields of a `PulseMachine`. -/
structure PMState where
  step : ℕ
  intensity : ℚ
  motion : ℚ
  density : ℚ
  rootHz : ℚ
deriving DecidableEq

/-- `PulseMachine.setIntensity`: clamp into `[0,1]` (bus-gain ramp elided). -/
def PMState.setIntensity (s : PMState) (v : ℚ) : PMState :=
  { s with intensity := clamp v 0 1 }

/-- `PulseMachine.setDensity`. -/
def PMState.setDensity (s : PMState) (v : ℚ) : PMState :=
  { s with density := clamp v 0 1 }

/-- `PulseMachine.setRootFrequency`: clamp into `[36, 92]`. -/
def PMState.setRootFrequency (s : PMState) (hz : ℚ) : PMState :=
  { s with rootHz := clamp hz 36 92 }

/-- An audio event triggered by one sequencer step: a membrane-synth kick
(`triggerAttackRelease(kickHz, '8n', _, vel)`), the step-4/12 filtered-noise
tick (`'32n'`), or the high-density ghost tick (`'64n'`). -/
inductive PulseHit
  | kick (hz vel : ℚ)
  | hatShort (vel : ℚ)
  | hatGhost (vel : ℚ)
deriving DecidableEq

/-- `PulseMachine.tick`: returns the hits triggered on this step and the
advanced state.  When intensity is at most `0.0005` no hit fires but the
step counter still advances modulo 16. -/
def PMState.tick (s : PMState) : List PulseHit × PMState :=
  if s.intensity ≤ 0.0005 then ([], { s with step := (s.step + 1) % 16 })
  else
    let step := s.step % 16
    let dense := 0.55 < s.density
    let denser := 0.82 < s.density
    let kicks : List PulseHit :=
      if step = 0 ∨ step = 8 ∨ (dense ∧ step = 12) then
        [.kick (if step = 12 then s.rootHz * 0.94 else s.rootHz) (0.45 + s.intensity * 0.35)]
      else []
    let hats : List PulseHit :=
      if step = 4 ∨ step = 12 then [.hatShort (0.18 + s.intensity * 0.25)] else []
    let ghosts : List PulseHit :=
      if denser ∧ step % 2 = 0 ∧ step ≠ 0 ∧ step ≠ 8 then
        [.hatGhost (0.05 + s.intensity * 0.12)]
      else []
    (kicks ++ hats ++ ghosts, { s with step := (s.step + 1) % 16 })

/-! ### Snapshot morph (`runMorph` in `src/unnamed/part_001`) -/

/-- The `SnapState` captured by `captureSnapshot`: the timbral subset of the
parameters (volume and mode excluded). -/
@[ext]
structure SnapState where
  darkness : ℚ
  motion : ℚ
  density : ℚ
  grain : ℚ
  rust : ℚ
  hum : ℚ
  fracture : ℚ
  space : ℚ
  pulse : ℚ
  root : ℚ
  intervalSpread : ℚ
deriving DecidableEq

/-- The interpolator used by `runMorph`: `lerp(a, b) = a + (b - a) * t`. -/
def lerp (a b t : ℚ) : ℚ := a + (b - a) * t

/-- The progress fraction computed by `runMorph`:
`t = Math.min(1, elapsed / dur)`. -/
def morphT (elapsed dur : ℚ) : ℚ := min 1 (elapsed / dur)

/-- The interpolated snapshot `runMorph` applies at progress `t`:
component-wise `lerp` of every snapshot field. -/
def morphSample (a b : SnapState) (t : ℚ) : SnapState :=
  ⟨lerp a.darkness b.darkness t, lerp a.motion b.motion t,
   lerp a.density b.density t, lerp a.grain b.grain t,
   lerp a.rust b.rust t, lerp a.hum b.hum t,
   lerp a.fracture b.fracture t, lerp a.space b.space t,
   lerp a.pulse b.pulse t, lerp a.root b.root t,
   lerp a.intervalSpread b.intervalSpread t⟩

/-! ### darkness → cutoff mapping (`analytics.ts`), over the reals -/

/-- `darknessToCutoff` from `analytics.ts`:
`brightHz * Math.pow(darkHz / brightHz, d)` with `brightHz = 2400`,
`darkHz = 60`.  The real-exponent power is `Real.rpow`. -/
noncomputable def darknessToCutoff (d : ℝ) : ℝ :=
  2400 * ((60 : ℝ) / 2400) ^ d

/-- The cutoff `_applyDarkness` actually applies to the master filter:
`Math.max(20, darknessToCutoff(d))`. -/
noncomputable def appliedCutoff (d : ℝ) : ℝ :=
  max 20 (darknessToCutoff d)

/-! ## Helper lemmas -/

lemma le_clamp (v lo hi : ℚ) : lo ≤ clamp v lo hi := le_max_left _ _

lemma clamp_le (v lo hi : ℚ) (h : lo ≤ hi) : clamp v lo hi ≤ hi :=
  max_le h (min_le_left _ _)

lemma clamp01_nonneg (v : ℚ) : 0 ≤ clamp v 0 1 := le_clamp v 0 1

lemma clamp01_le_one (v : ℚ) : clamp v 0 1 ≤ 1 := clamp_le v 0 1 (by norm_num)

lemma clamp01_eq_self {v : ℚ} (h0 : 0 ≤ v) (h1 : v ≤ 1) : clamp v 0 1 = v := by
  unfold clamp; rw [min_eq_right h1, max_eq_right h0]

lemma lookup_setKey (l : List (String × DronePreset)) (n : String) (p : DronePreset) :
    lookupKey (setKey l n p) n = some p := by
  induction l with
  | nil => simp [setKey, lookupKey]
  | cons kv rest ih =>
      by_cases h : kv.1 = n
      · simp [setKey, lookupKey, h]
      · simp [setKey, lookupKey, h, ih]

lemma currentParams_applyHarmonicStructure (s : Engine) :
    (Engine.applyHarmonicStructure s).currentParams = s.currentParams := rfl

lemma currentParams_applyTexture (s : Engine) (h : s.currentParams.inRange) :
    (Engine.applyTexture s).currentParams = s.currentParams := by
  simp only [Engine.currentParams, Params.inRange] at h
  obtain ⟨_, _, _, _, _, _, _, _, hg0, hg1, hr0, hr1, hh0, hh1, hf0, hf1,
    hs0, hs1, hp0, hp1, _, _, _, _⟩ := h
  unfold Engine.applyTexture
  split
  · simp [Engine.currentParams, Engine.applyHarmonicStructure,
      clamp01_eq_self hg0 hg1, clamp01_eq_self hr0 hr1, clamp01_eq_self hh0 hh1,
      clamp01_eq_self hf0 hf1, clamp01_eq_self hs0 hs1, clamp01_eq_self hp0 hp1]
  · rfl

/-! ## Claim theorems -/

/-- C5: for the bounded random-walk modulator with `min ≤ max`, the current
value is within `[min, max]` immediately after construction, after any
`setRange` call, and after any number of ticks with any random draws; the
stored rate is within `[0.005, 0.1]` Hz both at construction and after every
`setRate` call. -/
theorem random_walk_containment :
    (∀ o : RandomWalkOptions, o.min ≤ o.max →
        o.min ≤ (mkRandomWalk o).value ∧ (mkRandomWalk o).value ≤ o.max) ∧
    (∀ o : RandomWalkOptions,
        0.005 ≤ (mkRandomWalk o).rateHz ∧ (mkRandomWalk o).rateHz ≤ 0.1) ∧
    (∀ (s : RWState) (hz : ℚ),
        0.005 ≤ (s.setRate hz).rateHz ∧ (s.setRate hz).rateHz ≤ 0.1) ∧
    (∀ (s : RWState) (lo hi : ℚ), lo ≤ hi →
        lo ≤ (s.setRange lo hi).value ∧ (s.setRange lo hi).value ≤ hi) ∧
    (∀ s : RWState, s.min ≤ s.max → s.min ≤ s.value → s.value ≤ s.max →
        ∀ us : List ℚ,
          (s.runWalk us).min = s.min ∧ (s.runWalk us).max = s.max ∧
          s.min ≤ (s.runWalk us).value ∧ (s.runWalk us).value ≤ s.max) := by
  refine ⟨?_, ?_, ?_, ?_, ?_⟩
  · intro o h; exact ⟨le_clamp _ _ _, clamp_le _ _ _ h⟩
  · intro o; exact ⟨le_clamp _ _ _, clamp_le _ _ _ (by norm_num)⟩
  · intro s hz; exact ⟨le_clamp _ _ _, clamp_le _ _ _ (by norm_num)⟩
  · intro s lo hi h; exact ⟨le_clamp _ _ _, clamp_le _ _ _ h⟩
  · intro s hmm h0 h1 us
    induction us generalizing s with
    | nil => exact ⟨rfl, rfl, h0, h1⟩
    | cons u rest ih =>
        have hstep := ih (s.tickWalk u) hmm (le_clamp _ _ _) (clamp_le _ _ _ hmm)
        exact hstep

/-- C5 witness: the sub-pitch walker options of `_initialize`, run for three
ticks, stay inside `[30, 60]`. -/
theorem random_walk_containment_witness :
    ((mkRandomWalk ⟨30, 60, 42, 0.04, 0.01⟩).runWalk [0, 1, 0.3]).min = 30 ∧
    ((mkRandomWalk ⟨30, 60, 42, 0.04, 0.01⟩).runWalk [0, 1, 0.3]).max = 60 ∧
    (30 : ℚ) ≤ ((mkRandomWalk ⟨30, 60, 42, 0.04, 0.01⟩).runWalk [0, 1, 0.3]).value ∧
    ((mkRandomWalk ⟨30, 60, 42, 0.04, 0.01⟩).runWalk [0, 1, 0.3]).value ≤ 60 :=
  random_walk_containment.2.2.2.2 (mkRandomWalk ⟨30, 60, 42, 0.04, 0.01⟩)
    (by decide) (by decide) (by decide) [0, 1, 0.3]

/-- C7: the darkness-to-cutoff mapping equals `2400 * (60/2400)^d`, giving
`2400` Hz at `d = 0` and `60` Hz at `d = 1`; it is strictly decreasing on
`[0, 1]`; and the value applied to the master filter is floored at 20 Hz. -/
theorem darkness_cutoff_spec :
    darknessToCutoff 0 = 2400 ∧
    darknessToCutoff 1 = 60 ∧
    (∀ a b : ℝ, 0 ≤ a → a < b → b ≤ 1 →
        darknessToCutoff b < darknessToCutoff a) ∧
    (∀ d : ℝ, appliedCutoff d = max 20 (darknessToCutoff d) ∧ 20 ≤ appliedCutoff d) := by
  refine ⟨?_, ?_, ?_, ?_⟩
  · simp [darknessToCutoff]
  · norm_num [darknessToCutoff, Real.rpow_one]
  · intro a b _ hab _
    have h := Real.rpow_lt_rpow_of_exponent_gt
      (x := (60 : ℝ) / 2400) (by norm_num) (by norm_num) hab
    have h24 : (0 : ℝ) < 2400 := by norm_num
    exact mul_lt_mul_of_pos_left h h24
  · intro d; exact ⟨rfl, le_max_left _ _⟩

/-- C7 witness: strict decrease instantiated at the endpoints `0 < 1`. -/
theorem darkness_cutoff_spec_witness :
    (0 : ℝ) ≤ 0 ∧ (0 : ℝ) < 1 ∧ (1 : ℝ) ≤ 1 ∧
    darknessToCutoff 1 < darknessToCutoff 0 :=
  ⟨le_refl 0, by norm_num, le_refl 1,
   darkness_cutoff_spec.2.2.1 0 1 (le_refl 0) (by norm_num) (le_refl 1)⟩

/-- C9: `loadPreset` returns `false` and leaves the engine untouched when the
name is absent; unparsable persisted data is treated as an empty preset set
(`getPresetNames = []` and `loadPreset` fails for every name) rather than a
fatal error. -/
theorem load_preset_missing_safe :
    (∀ (s : Engine) (name : String),
        lookupKey (loadAllPresets s.store) name = none →
        s.loadPreset name = (false, s)) ∧
    (∀ (s : Engine) (name : String), s.store = .corrupt →
        s.getPresetNames = [] ∧ (s.loadPreset name).1 = false) := by
  constructor
  · intro s name h
    simp [Engine.loadPreset, h]
  · intro s name h
    refine ⟨?_, ?_⟩
    · simp [Engine.getPresetNames, h, loadAllPresets]
    · simp [Engine.loadPreset, h, loadAllPresets, lookupKey]

/-- C9 witness: a fresh engine over a corrupted store lists no presets and
fails to load one. -/
theorem load_preset_missing_safe_witness :
    (initialEngine .corrupt).getPresetNames = [] ∧
    ((initialEngine .corrupt).loadPreset "pad").1 = false :=
  load_preset_missing_safe.2 (initialEngine .corrupt) "pad" rfl

/-- C10: stopping a running engine only clears the running flag and the
macro-scene timer; every cached parameter and the current mode read
identically before and after `stop()`. -/
theorem stop_frame_condition :
    ∀ s : Engine, s.running = true →
      Engine.stop s = { s with running := false, sceneTimer := false } ∧
      (Engine.stop s).currentParams = s.currentParams ∧
      (Engine.stop s).currentMode = s.currentMode ∧
      (Engine.stop s).running = false := by
  intro s h
  have hs : Engine.stop s = { s with running := false, sceneTimer := false } := by
    simp [Engine.stop, h]
  exact ⟨hs, by simp [hs, Engine.currentParams], by simp [hs, Engine.currentMode], by simp [hs]⟩

lemma inRange_applySetter (s : Engine) (op : SetterOp)
    (h : s.currentParams.inRange) : (applySetter s op).currentParams.inRange := by
  simp only [Engine.currentParams, Params.inRange] at h
  obtain ⟨hv0, hv1, hd0, hd1, hm0, hm1, he0, he1, hg0, hg1, hr0, hr1, hh0, hh1,
    hf0, hf1, hs0, hs1, hp0, hp1, hq0, hq1, hi0, hi1⟩ := h
  cases op with
  | vol v => exact ⟨clamp01_nonneg v, clamp01_le_one v, hd0, hd1, hm0, hm1, he0, he1,
      hg0, hg1, hr0, hr1, hh0, hh1, hf0, hf1, hs0, hs1, hp0, hp1, hq0, hq1, hi0, hi1⟩
  | dark v => exact ⟨hv0, hv1, clamp01_nonneg v, clamp01_le_one v, hm0, hm1, he0, he1,
      hg0, hg1, hr0, hr1, hh0, hh1, hf0, hf1, hs0, hs1, hp0, hp1, hq0, hq1, hi0, hi1⟩
  | mot v => exact ⟨hv0, hv1, hd0, hd1, clamp01_nonneg v, clamp01_le_one v, he0, he1,
      hg0, hg1, hr0, hr1, hh0, hh1, hf0, hf1, hs0, hs1, hp0, hp1, hq0, hq1, hi0, hi1⟩
  | dens v => exact ⟨hv0, hv1, hd0, hd1, hm0, hm1, clamp01_nonneg v, clamp01_le_one v,
      hg0, hg1, hr0, hr1, hh0, hh1, hf0, hf1, hs0, hs1, hp0, hp1, hq0, hq1, hi0, hi1⟩
  | grain v => exact ⟨hv0, hv1, hd0, hd1, hm0, hm1, he0, he1,
      clamp01_nonneg v, clamp01_le_one v, hr0, hr1, hh0, hh1, hf0, hf1,
      hs0, hs1, hp0, hp1, hq0, hq1, hi0, hi1⟩
  | rust v => exact ⟨hv0, hv1, hd0, hd1, hm0, hm1, he0, he1, hg0, hg1,
      clamp01_nonneg v, clamp01_le_one v, hh0, hh1, hf0, hf1,
      hs0, hs1, hp0, hp1, hq0, hq1, hi0, hi1⟩
  | hum v => exact ⟨hv0, hv1, hd0, hd1, hm0, hm1, he0, he1, hg0, hg1, hr0, hr1,
      clamp01_nonneg v, clamp01_le_one v, hf0, hf1, hs0, hs1, hp0, hp1, hq0, hq1, hi0, hi1⟩
  | fracture v => exact ⟨hv0, hv1, hd0, hd1, hm0, hm1, he0, he1, hg0, hg1, hr0, hr1,
      hh0, hh1, clamp01_nonneg v, clamp01_le_one v, hs0, hs1, hp0, hp1, hq0, hq1, hi0, hi1⟩
  | space v =>
      show ((s.setSpace v).currentParams).inRange
      unfold Engine.setSpace
      split <;>
        exact ⟨hv0, hv1, hd0, hd1, hm0, hm1, he0, he1, hg0, hg1, hr0, hr1,
          hh0, hh1, hf0, hf1, clamp01_nonneg v, clamp01_le_one v,
          hp0, hp1, hq0, hq1, hi0, hi1⟩
  | pulse v => exact ⟨hv0, hv1, hd0, hd1, hm0, hm1, he0, he1, hg0, hg1, hr0, hr1,
      hh0, hh1, hf0, hf1, hs0, hs1, clamp01_nonneg v, clamp01_le_one v, hq0, hq1, hi0, hi1⟩
  | root v => exact ⟨hv0, hv1, hd0, hd1, hm0, hm1, he0, he1, hg0, hg1, hr0, hr1,
      hh0, hh1, hf0, hf1, hs0, hs1, hp0, hp1, clamp01_nonneg v, clamp01_le_one v, hi0, hi1⟩
  | spread v => exact ⟨hv0, hv1, hd0, hd1, hm0, hm1, he0, he1, hg0, hg1, hr0, hr1,
      hh0, hh1, hf0, hf1, hs0, hs1, hp0, hp1, hq0, hq1, clamp01_nonneg v, clamp01_le_one v⟩

/-- C1: every numeric parameter setter stores its input clamped to `[0, 1]`
and reads it back unchanged from `currentParams`; consequently every numeric
field of `currentParams` stays in `[0, 1]` across any sequence of setter
calls (from any in-range state, in particular from a fresh engine); and
`setDarkness(1.5)` leaves `currentParams.darkness` equal to exactly 1. -/
theorem engine_setter_clamp_inv :
    (∀ (s : Engine) (v : ℚ),
        (s.setVolume v).currentParams.volume = clamp v 0 1 ∧
        (s.setDarkness v).currentParams.darkness = clamp v 0 1 ∧
        (s.setMotion v).currentParams.motion = clamp v 0 1 ∧
        (s.setDensity v).currentParams.density = clamp v 0 1 ∧
        (s.setGrain v).currentParams.grain = clamp v 0 1 ∧
        (s.setRust v).currentParams.rust = clamp v 0 1 ∧
        (s.setHum v).currentParams.hum = clamp v 0 1 ∧
        (s.setFracture v).currentParams.fracture = clamp v 0 1 ∧
        (s.setSpace v).currentParams.space = clamp v 0 1 ∧
        (s.setPulse v).currentParams.pulse = clamp v 0 1 ∧
        (s.setRoot v).currentParams.root = clamp v 0 1 ∧
        (s.setIntervalSpread v).currentParams.intervalSpread = clamp v 0 1) ∧
    (∀ s : Engine, s.currentParams.inRange →
        ∀ ops : List SetterOp, (applySetters s ops).currentParams.inRange) ∧
    (∀ (st : StoredData) (ops : List SetterOp),
        (applySetters (initialEngine st) ops).currentParams.inRange) ∧
    (∀ s : Engine, (s.setDarkness 1.5).currentParams.darkness = 1) := by
  have hpres : ∀ s : Engine, s.currentParams.inRange →
      ∀ ops : List SetterOp, (applySetters s ops).currentParams.inRange := by
    intro s h ops
    induction ops generalizing s with
    | nil => exact h
    | cons op rest ih => exact ih (applySetter s op) (inRange_applySetter s op h)
  refine ⟨?_, hpres, ?_, ?_⟩
  · intro s v
    refine ⟨rfl, rfl, rfl, rfl, rfl, rfl, rfl, rfl, ?_, rfl, rfl, rfl⟩
    show ((s.setSpace v).currentParams).space = clamp v 0 1
    unfold Engine.setSpace
    split <;> rfl
  · intro st ops
    refine hpres (initialEngine st) ?_ ops
    show Params.inRange ⟨0.85, 0.45, 0.4, 0.45, 0.3, 0.2, 0.4, 0.15, 0.45, 0.18, false, 0.35, 0.4⟩
    unfold Params.inRange
    norm_num
  · intro s
    show clamp (1.5 : ℚ) 0 1 = 1
    unfold clamp
    rw [min_eq_left (by norm_num : (1 : ℚ) ≤ 1.5), max_eq_right (by norm_num : (0 : ℚ) ≤ 1)]

/-- C1 witness: the invariant instantiated on a fresh engine and a concrete
setter sequence with out-of-range inputs. -/
theorem engine_setter_clamp_inv_witness :
    Params.inRange (Engine.currentParams (initialEngine .corrupt)) ∧
    Params.inRange ((applySetters (initialEngine .corrupt)
      [.dark 1.5, .vol 7, .root (-2)]).currentParams) :=
  ⟨by unfold initialEngine Engine.currentParams Params.inRange; norm_num,
   engine_setter_clamp_inv.2.1 (initialEngine .corrupt)
     (by unfold initialEngine Engine.currentParams Params.inRange; norm_num)
     [.dark 1.5, .vol 7, .root (-2)]⟩

lemma initCount_applyTexture (s : Engine) :
    (Engine.applyTexture s).initCount = s.initCount ∧
    (Engine.applyTexture s).inited = s.inited := by
  unfold Engine.applyTexture
  split <;> exact ⟨rfl, rfl⟩

lemma initAudio_inv (s : Engine) (h : s.initCount = if s.inited then 1 else 0) :
    (Engine.initAudio s).initCount = if (Engine.initAudio s).inited then 1 else 0 := by
  simp only [Engine.initAudio]
  split
  · rename_i hi
    rw [h, if_pos hi]
  · rename_i hni
    have h0 : s.initCount = 0 := by
      rwa [if_neg hni] at h
    have ht := initCount_applyTexture
      { Engine.applyHarmonicStructure { s with reverbWet := some 0.42 } with
        inited := true, initCount := s.initCount + 1 }
    rw [ht.1, ht.2]
    simp [h0]

lemma initInv_applyLifecycle (s : Engine) (op : LifecycleOp)
    (h : s.initCount = if s.inited then 1 else 0) :
    (applyLifecycle s op).initCount = (if (applyLifecycle s op).inited then 1 else 0) := by
  cases op with
  | stopOp =>
      show (Engine.stop s).initCount = if (Engine.stop s).inited then 1 else 0
      unfold Engine.stop
      split <;> exact h
  | startOp =>
      show (Engine.start s).initCount = if (Engine.start s).inited then 1 else 0
      simp only [Engine.start]
      split
      · exact h
      · exact initAudio_inv s h

/-- C8: across any finite sequence of `start()`/`stop()` calls on a fresh
engine, the audio-resource initialization body runs at most once; and
`stop()` on a not-running (in particular uninitialized) engine is a no-op
that changes nothing. -/
theorem init_once_stop_noop :
    (∀ (st : StoredData) (ops : List LifecycleOp),
        (runLifecycle (initialEngine st) ops).initCount ≤ 1) ∧
    (∀ s : Engine, s.running = false → Engine.stop s = s) := by
  constructor
  · intro st ops
    have key : ∀ (l : List LifecycleOp) (s : Engine),
        s.initCount = (if s.inited then 1 else 0) →
        (runLifecycle s l).initCount = (if (runLifecycle s l).inited then 1 else 0) := by
      intro l
      induction l with
      | nil => intro s h; exact h
      | cons op rest ih =>
          intro s h
          exact ih (applyLifecycle s op) (initInv_applyLifecycle s op h)
    have h := key ops (initialEngine st) rfl
    rw [h]
    split <;> norm_num
  · intro s h
    unfold Engine.stop
    rw [h]
    simp

/-- C8 witness: a start/stop/start sequence initializes at most once, and a
fresh stopped engine is unchanged by `stop()`. -/
theorem init_once_stop_noop_witness :
    (runLifecycle (initialEngine .corrupt) [.startOp, .stopOp, .startOp]).initCount ≤ 1 ∧
    ((initialEngine .corrupt).running = false ∧
      Engine.stop (initialEngine .corrupt) = initialEngine .corrupt) :=
  ⟨init_once_stop_noop.1 .corrupt [.startOp, .stopOp, .startOp],
   ⟨rfl, init_once_stop_noop.2 (initialEngine .corrupt) rfl⟩⟩

/-- C10 witness: start a fresh engine, then stop it; parameters and mode
are unchanged. -/
theorem stop_frame_condition_witness :
    (Engine.start (initialEngine .corrupt)).running = true ∧
    ((Engine.start (initialEngine .corrupt)).stop).currentParams
      = (Engine.start (initialEngine .corrupt)).currentParams ∧
    ((Engine.start (initialEngine .corrupt)).stop).currentMode
      = (Engine.start (initialEngine .corrupt)).currentMode :=
  ⟨rfl,
   (stop_frame_condition (Engine.start (initialEngine .corrupt)) rfl).2.1,
   (stop_frame_condition (Engine.start (initialEngine .corrupt)) rfl).2.2.1⟩

/-- C4: the morph's interpolated output at progress `t = 0` equals the
`from` snapshot exactly and at `t = 1` equals the `to` snapshot exactly in
every field; every field is the component-wise `lerp` of the endpoints;
between distinct endpoint values the interpolant is strictly monotonic (in
the direction of the target), and it always stays between the endpoint
values; and the progress fraction is `0` at elapsed `0` and `1` at elapsed
equal to the segment duration. -/
theorem morph_endpoints_monotone :
    (∀ a b : SnapState, morphSample a b 0 = a) ∧
    (∀ a b : SnapState, morphSample a b 1 = b) ∧
    (∀ (a b : SnapState) (t : ℚ),
        (morphSample a b t).darkness = lerp a.darkness b.darkness t ∧
        (morphSample a b t).motion = lerp a.motion b.motion t ∧
        (morphSample a b t).density = lerp a.density b.density t ∧
        (morphSample a b t).grain = lerp a.grain b.grain t ∧
        (morphSample a b t).rust = lerp a.rust b.rust t ∧
        (morphSample a b t).hum = lerp a.hum b.hum t ∧
        (morphSample a b t).fracture = lerp a.fracture b.fracture t ∧
        (morphSample a b t).space = lerp a.space b.space t ∧
        (morphSample a b t).pulse = lerp a.pulse b.pulse t ∧
        (morphSample a b t).root = lerp a.root b.root t ∧
        (morphSample a b t).intervalSpread = lerp a.intervalSpread b.intervalSpread t) ∧
    (∀ x y t1 t2 : ℚ, t1 < t2 →
        (x < y → lerp x y t1 < lerp x y t2) ∧
        (y < x → lerp x y t2 < lerp x y t1)) ∧
    (∀ x y t : ℚ, 0 ≤ t → t ≤ 1 →
        min x y ≤ lerp x y t ∧ lerp x y t ≤ max x y) ∧
    (∀ dur : ℚ, 0 < dur → morphT 0 dur = 0 ∧ morphT dur dur = 1) := by
  refine ⟨?_, ?_, ?_, ?_, ?_, ?_⟩
  · intro a b; ext <;> simp [morphSample, lerp]
  · intro a b; ext <;> simp [morphSample, lerp]
  · intro a b t
    exact ⟨rfl, rfl, rfl, rfl, rfl, rfl, rfl, rfl, rfl, rfl, rfl⟩
  · intro x y t1 t2 ht
    constructor
    · intro hxy
      unfold lerp
      nlinarith [mul_pos (sub_pos.2 hxy) (sub_pos.2 ht)]
    · intro hyx
      unfold lerp
      nlinarith [mul_pos (sub_pos.2 hyx) (sub_pos.2 ht)]
  · intro x y t ht0 ht1
    unfold lerp
    rcases le_total x y with hxy | hyx
    · rw [min_eq_left hxy, max_eq_right hxy]
      constructor
      · nlinarith [mul_nonneg (sub_nonneg.2 hxy) ht0]
      · nlinarith [mul_le_of_le_one_right (sub_nonneg.2 hxy) ht1]
    · rw [min_eq_right hyx, max_eq_left hyx]
      constructor
      · nlinarith [mul_le_of_le_one_right (sub_nonneg.2 hyx) ht1]
      · nlinarith [mul_nonneg (sub_nonneg.2 hyx) ht0]
  · intro dur hdur
    constructor
    · simp [morphT, zero_div]
    · simp [morphT, div_self (ne_of_gt hdur)]

/-- C4 witness: the strict monotonicity and progress clauses instantiated at
concrete endpoints `0 < 1`, progress points `0 < 1` and duration 8. -/
theorem morph_endpoints_monotone_witness :
    (0 : ℚ) < 1 ∧ lerp 0 1 0 < lerp 0 1 1 ∧
    min (0 : ℚ) 1 ≤ lerp 0 1 (1/2) ∧ lerp 0 1 (1/2) ≤ max (0 : ℚ) 1 ∧
    morphT 0 8 = 0 ∧ morphT 8 8 = 1 :=
  ⟨by norm_num,
   (morph_endpoints_monotone.2.2.2.1 0 1 0 1 (by norm_num)).1 (by norm_num),
   (morph_endpoints_monotone.2.2.2.2.1 0 1 (1/2) (by norm_num) (by norm_num)).1,
   (morph_endpoints_monotone.2.2.2.2.1 0 1 (1/2) (by norm_num) (by norm_num)).2,
   (morph_endpoints_monotone.2.2.2.2.2 8 (by norm_num)).1,
   (morph_endpoints_monotone.2.2.2.2.2 8 (by norm_num)).2⟩

lemma ghost_not_mem_kickIf {c : Prop} [Decidable c] (a b v : ℚ) :
    PulseHit.hatGhost v ∉ (if c then [PulseHit.kick a b] else []) := by
  split <;> simp

lemma ghost_not_mem_hatIf {c : Prop} [Decidable c] (b v : ℚ) :
    PulseHit.hatGhost v ∉ (if c then [PulseHit.hatShort b] else []) := by
  split <;> simp

lemma kick_not_mem_hatIf {c : Prop} [Decidable c] (a b v : ℚ) :
    PulseHit.kick a b ∉ (if c then [PulseHit.hatShort v] else []) := by
  split <;> simp

lemma kick_not_mem_ghostIf {c : Prop} [Decidable c] (a b v : ℚ) :
    PulseHit.kick a b ∉ (if c then [PulseHit.hatGhost v] else []) := by
  split <;> simp

/-- C6: on every tick with intensity above the silence threshold `0.0005`,
steps 0 and 8 trigger a kick at the root pitch; step 12 triggers a kick at
`0.94 ×` root exactly when density exceeds `0.55`; steps 4 and 12 trigger a
filtered-noise tick at velocity `0.18 + intensity·0.25`; quieter ghost ticks
fire on an even step other than 0 and 8 exactly when density exceeds `0.82`;
and when intensity is at most `0.0005` no hit is triggered while the step
counter still advances modulo 16. -/
theorem pulse_tick_spec (s : PMState) :
    (s.intensity ≤ 0.0005 →
        (PMState.tick s).1 = [] ∧
        (PMState.tick s).2 = { s with step := (s.step + 1) % 16 }) ∧
    (0.0005 < s.intensity →
        ((PMState.tick s).2.step = (s.step + 1) % 16) ∧
        ((s.step % 16 = 0 ∨ s.step % 16 = 8) →
            PulseHit.kick s.rootHz (0.45 + s.intensity * 0.35) ∈ (PMState.tick s).1) ∧
        (s.step % 16 = 12 →
            (PulseHit.kick (s.rootHz * 0.94) (0.45 + s.intensity * 0.35) ∈ (PMState.tick s).1
              ↔ 0.55 < s.density)) ∧
        ((s.step % 16 = 4 ∨ s.step % 16 = 12) →
            PulseHit.hatShort (0.18 + s.intensity * 0.25) ∈ (PMState.tick s).1) ∧
        (s.step % 16 % 2 = 0 → s.step % 16 ≠ 0 → s.step % 16 ≠ 8 →
            (PulseHit.hatGhost (0.05 + s.intensity * 0.12) ∈ (PMState.tick s).1
              ↔ 0.82 < s.density))) := by
  constructor
  · intro h
    simp only [PMState.tick]
    rw [if_pos h]
    exact ⟨rfl, rfl⟩
  · intro h
    have hn : ¬ s.intensity ≤ 0.0005 := not_le.2 h
    simp only [PMState.tick]
    rw [if_neg hn]
    refine ⟨rfl, ?_, ?_, ?_, ?_⟩
    · rintro (h0 | h8)
      · rw [h0]
        norm_num
      · rw [h8]
        norm_num
    · intro h12
      rw [h12]
      by_cases hd : (0.55 : ℚ) < s.density
      · simp [hd]
      · have hdd : ¬ (0.82 : ℚ) < s.density :=
          fun hh => hd (lt_trans (by norm_num) hh)
        simp [hd, hdd]
    · rintro (h4 | h12)
      · rw [h4]
        norm_num
      · rw [h12]
        norm_num
    · intro he h0 h8
      by_cases hd : (0.82 : ℚ) < s.density
      · simp [List.mem_append, he, h0, h8, hd]
      · simp [List.mem_append, he, h0, h8, hd,
          ghost_not_mem_kickIf, ghost_not_mem_hatIf]

/-- C6 witness: a concrete state at step 0 with intensity `0.5` triggers the
root-pitch kick. -/
theorem pulse_tick_spec_witness :
    (0.0005 : ℚ) < 0.5 ∧
    PulseHit.kick 56 (0.45 + 0.5 * 0.35) ∈ (PMState.tick ⟨0, 0.5, 0.4, 0.6, 56⟩).1 :=
  ⟨by norm_num,
   ((pulse_tick_spec ⟨0, 0.5, 0.4, 0.6, 56⟩).2 (by norm_num)).2.1 (Or.inl rfl)⟩

/-- C2: with every numeric parameter in `[0, 1]` (the §3 data-model
invariant), `savePreset(name)` followed immediately by `loadPreset(name)`
returns `true` and restores every field of `currentParams` to the exact
values held just before the save. -/
theorem preset_roundtrip (s : Engine) (name : String) (h : s.currentParams.inRange) :
    ((s.savePreset name).loadPreset name).1 = true ∧
    ((s.savePreset name).loadPreset name).2.currentParams = s.currentParams := by
  simp only [Engine.currentParams, Params.inRange] at h
  obtain ⟨hv0, hv1, hd0, hd1, hm0, hm1, he0, he1, hg0, hg1, hr0, hr1, hh0, hh1,
    hf0, hf1, hs0, hs1, hp0, hp1, hq0, hq1, hi0, hi1⟩ := h
  have hlk : lookupKey (loadAllPresets (s.savePreset name).store) name
      = some { name := name, volume := s.volume, darkness := s.darkness, motion := s.motion
               density := s.density, subFreq := s.subFreq, midFreq := s.midFreq
               airFreq := s.airFreq
               grain := some s.grain, rust := some s.rust, hum := some s.hum
               fracture := some s.fracture, space := some s.space, pulse := some s.pulse
               pureDrone := some s.pureDrone, root := some s.root
               intervalSpread := some s.intervalSpread, mode := some s.mode } := by
    simp only [Engine.savePreset, loadAllPresets]
    exact lookup_setKey _ _ _
  constructor
  · simp [Engine.loadPreset, hlk]
  · simp only [Engine.loadPreset, hlk, Option.getD_some]
    split
    · rw [currentParams_applyHarmonicStructure, currentParams_applyTexture]
      · simp [Engine.currentParams, clamp01_eq_self hv0 hv1, clamp01_eq_self hd0 hd1,
          clamp01_eq_self hm0 hm1, clamp01_eq_self he0 he1]
      · simp only [Engine.currentParams, clamp01_eq_self hv0 hv1, clamp01_eq_self hd0 hd1,
          clamp01_eq_self hm0 hm1, clamp01_eq_self he0 he1]
        exact ⟨hv0, hv1, hd0, hd1, hm0, hm1, he0, he1, hg0, hg1, hr0, hr1, hh0, hh1,
          hf0, hf1, hs0, hs1, hp0, hp1, hq0, hq1, hi0, hi1⟩
    · simp [Engine.currentParams, clamp01_eq_self hv0 hv1, clamp01_eq_self hd0 hd1,
        clamp01_eq_self hm0 hm1, clamp01_eq_self he0 he1]

/-- C2 witness: the round trip on a fresh engine restores its parameters. -/
theorem preset_roundtrip_witness :
    Params.inRange (Engine.currentParams (initialEngine .corrupt)) ∧
    (((initialEngine .corrupt).savePreset "pad").loadPreset "pad").1 = true ∧
    (((initialEngine .corrupt).savePreset "pad").loadPreset "pad").2.currentParams
      = (initialEngine .corrupt).currentParams :=
  ⟨by unfold initialEngine Engine.currentParams Params.inRange; norm_num,
   (preset_roundtrip (initialEngine .corrupt) "pad"
     (by unfold initialEngine Engine.currentParams Params.inRange; norm_num)).1,
   (preset_roundtrip (initialEngine .corrupt) "pad"
     (by unfold initialEngine Engine.currentParams Params.inRange; norm_num)).2⟩

lemma rand_bounds {lo hi u : ℚ} (h : lo ≤ hi) (h0 : 0 ≤ u) (h1 : u ≤ 1) :
    lo ≤ lo + u * (hi - lo) ∧ lo + u * (hi - lo) ≤ hi := by
  constructor
  · nlinarith
  · nlinarith

lemma randomize_fields (s : Engine) (u1 u2 u3 u4 u5 u6 : ℚ) :
    (s.randomize u1 u2 u3 u4 u5 u6).darkness = 0.2 + u1 * (0.85 - 0.2) ∧
    (s.randomize u1 u2 u3 u4 u5 u6).motion = 0.1 + u2 * (0.9 - 0.1) ∧
    (s.randomize u1 u2 u3 u4 u5 u6).density = 0.1 + u3 * (0.9 - 0.1) ∧
    (s.randomize u1 u2 u3 u4 u5 u6).root = 0.15 + u4 * (0.85 - 0.15) ∧
    (s.randomize u1 u2 u3 u4 u5 u6).intervalSpread = 0.2 + u5 * (0.85 - 0.2) ∧
    (s.randomize u1 u2 u3 u4 u5 u6).mode = s.mode ∧
    (s.inited = true →
        (s.randomize u1 u2 u3 u4 u5 u6).reverbWet = some (0.3 + u6 * (0.65 - 0.3))) ∧
    (s.inited = false →
        (s.randomize u1 u2 u3 u4 u5 u6).reverbWet = s.reverbWet) := by
  simp only [Engine.randomize, Engine.applyHarmonicStructure]
  split
  · rename_i hi
    refine ⟨rfl, rfl, rfl, rfl, rfl, rfl, fun _ => rfl, fun hf => ?_⟩
    rw [hi] at hf
    simp at hf
  · rename_i hi
    refine ⟨rfl, rfl, rfl, rfl, rfl, rfl, fun ht => absurd ht hi, fun _ => rfl⟩

/-- C3 counterexample: `randomize()` does not set the engine's mode back to
MANUAL.  On an engine put into mode VOID PRESSURE, calling `randomize` (with
all uniform draws at `0.5`) leaves `currentMode = VOID PRESSURE ≠ MANUAL`. -/
theorem randomize_mode_counterexample :
    Engine.currentMode
      (Engine.randomize ((initialEngine .corrupt).setMode .VOID_PRESSURE)
        0.5 0.5 0.5 0.5 0.5 0.5) = SoundMode.VOID_PRESSURE ∧
    SoundMode.VOID_PRESSURE ≠ SoundMode.MANUAL := by
  constructor
  · show (Engine.randomize ((initialEngine .corrupt).setMode .VOID_PRESSURE)
        0.5 0.5 0.5 0.5 0.5 0.5).mode = SoundMode.VOID_PRESSURE
    rw [(randomize_fields ((initialEngine .corrupt).setMode .VOID_PRESSURE)
      0.5 0.5 0.5 0.5 0.5 0.5).2.2.2.2.2.1]
    rfl
  · decide

/-- C3 (amended): `randomize()` never throws (it is a total state
transformer, in particular well-defined while stopped or uninitialized);
with uniform draws in `[0, 1]` it puts the new darkness in `[0.2, 0.85]`,
motion and density in `[0.1, 0.9]`, root in `[0.15, 0.85]` and
intervalSpread in `[0.2, 0.85]`; when the engine is initialized it retargets
the master reverb wetness to a random value within `[0.3, 0.65]` (when
uninitialized the reverb is untouched); and it leaves `currentMode`
unchanged (the reset of the mode to MANUAL is performed by the UI handler
`handleRandomize`, not by `DroneEngine.randomize`). -/
theorem randomize_amended_spec (s : Engine) (u1 u2 u3 u4 u5 u6 : ℚ)
    (h1 : 0 ≤ u1) (h1' : u1 ≤ 1) (h2 : 0 ≤ u2) (h2' : u2 ≤ 1)
    (h3 : 0 ≤ u3) (h3' : u3 ≤ 1) (h4 : 0 ≤ u4) (h4' : u4 ≤ 1)
    (h5 : 0 ≤ u5) (h5' : u5 ≤ 1) (h6 : 0 ≤ u6) (h6' : u6 ≤ 1) :
    (0.2 ≤ (s.randomize u1 u2 u3 u4 u5 u6).darkness ∧
      (s.randomize u1 u2 u3 u4 u5 u6).darkness ≤ 0.85) ∧
    (0.1 ≤ (s.randomize u1 u2 u3 u4 u5 u6).motion ∧
      (s.randomize u1 u2 u3 u4 u5 u6).motion ≤ 0.9) ∧
    (0.1 ≤ (s.randomize u1 u2 u3 u4 u5 u6).density ∧
      (s.randomize u1 u2 u3 u4 u5 u6).density ≤ 0.9) ∧
    (0.15 ≤ (s.randomize u1 u2 u3 u4 u5 u6).root ∧
      (s.randomize u1 u2 u3 u4 u5 u6).root ≤ 0.85) ∧
    (0.2 ≤ (s.randomize u1 u2 u3 u4 u5 u6).intervalSpread ∧
      (s.randomize u1 u2 u3 u4 u5 u6).intervalSpread ≤ 0.85) ∧
    (s.randomize u1 u2 u3 u4 u5 u6).currentMode = s.currentMode ∧
    (s.inited = true →
        (s.randomize u1 u2 u3 u4 u5 u6).reverbWet = some (0.3 + u6 * (0.65 - 0.3)) ∧
        0.3 ≤ (0.3 : ℚ) + u6 * (0.65 - 0.3) ∧ (0.3 : ℚ) + u6 * (0.65 - 0.3) ≤ 0.65) ∧
    (s.inited = false →
        (s.randomize u1 u2 u3 u4 u5 u6).reverbWet = s.reverbWet) := by
  obtain ⟨hd, hm, he, hr, hs, hmode, hwt, hwf⟩ := randomize_fields s u1 u2 u3 u4 u5 u6
  refine ⟨?_, ?_, ?_, ?_, ?_, ?_, ?_, hwf⟩
  · rw [hd]; exact rand_bounds (by norm_num) h1 h1'
  · rw [hm]; exact rand_bounds (by norm_num) h2 h2'
  · rw [he]; exact rand_bounds (by norm_num) h3 h3'
  · rw [hr]; exact rand_bounds (by norm_num) h4 h4'
  · rw [hs]; exact rand_bounds (by norm_num) h5 h5'
  · exact hmode
  · intro hi
    exact ⟨hwt hi, (rand_bounds (by norm_num) h6 h6').1, (rand_bounds (by norm_num) h6 h6').2⟩

/-- C3 (amended) witness: instantiated on an uninitialized (stopped) fresh
engine with all draws at `0.5`. -/
theorem randomize_amended_spec_witness :
    (0 : ℚ) ≤ 0.5 ∧ (0.5 : ℚ) ≤ 1 ∧
    (0.2 : ℚ) ≤ ((initialEngine .corrupt).randomize 0.5 0.5 0.5 0.5 0.5 0.5).darkness ∧
    ((initialEngine .corrupt).randomize 0.5 0.5 0.5 0.5 0.5 0.5).currentMode
      = (initialEngine .corrupt).currentMode :=
  ⟨by norm_num, by norm_num,
   (randomize_amended_spec (initialEngine .corrupt) 0.5 0.5 0.5 0.5 0.5 0.5
     (by norm_num) (by norm_num) (by norm_num) (by norm_num) (by norm_num) (by norm_num)
     (by norm_num) (by norm_num) (by norm_num) (by norm_num) (by norm_num) (by norm_num)).1.1,
   (randomize_amended_spec (initialEngine .corrupt) 0.5 0.5 0.5 0.5 0.5 0.5
     (by norm_num) (by norm_num) (by norm_num) (by norm_num) (by norm_num) (by norm_num)
     (by norm_num) (by norm_num) (by norm_num) (by norm_num) (by norm_num)
     (by norm_num)).2.2.2.2.2.1⟩

end MusicTool
